import Mathlib

/-!
# Verification of the recruitment supervisor conversation core

Shallow embedding of `src/agents/supervisor_agent.py`: the shared
`SupervisorState`, the pydantic structured-output schemas, the supervisor
(router) node, the three phase handlers (`invoke_intent`, `invoke_jd`,
`invoke_questions`), the `route_logic` dispatch, and one turn of the
compiled graph.  The external reasoning oracle (an LLM invoked through
`with_structured_output`) is modelled as an explicit function from the
context bundle that the handler interpolates into its prompt to a
schema-conforming structured result (or an oracle failure).  Python
exceptions raised by handler code (`KeyError`, `AttributeError`) are
modelled with `Except`.
-/

namespace Recruit

/-- Role tag of a chat message (`HumanMessage` vs `AIMessage`). -/
inductive Role where
  | user
  | agent
deriving DecidableEq

/-- One message of the conversation history. -/
structure Msg where
  role : Role
  content : String
deriving DecidableEq

/-- The values admitted by the pydantic `Literal["incomplete", "complete"]`
type of every schema's `node_decision` field; pydantic validation rejects
anything else. -/
inductive Decision where
  | incomplete
  | complete
deriving DecidableEq

/-- The string a `Decision` is stored as in the state dict. -/
def Decision.str : Decision → String
  | .incomplete => "incomplete"
  | .complete => "complete"

/-- The `SupervisorState` TypedDict.  Fields that a fresh conversation may
lack (or that handlers may set to Python `None`) are `Option`; the code
only ever reads them through `.get` with a default, so a missing key and
an explicit `None` behave alike at every read site that matters here.
`current_node`, `node_decision` and `next_node_to_invoke` are read with
default `""`, so they are plain strings with `""` for "unset". -/
structure SupervisorState where
  messages : List Msg
  collected_information : Option String
  job_description : Option String
  questions : Option (List String)
  next_node_to_invoke : String
  prev_question : Option String
  current_node : String
  node_decision : String
deriving DecidableEq

/-- `IntentAnalysis` pydantic schema.  Its `current_node` field has type
`Literal["invoke_intent"]`, so validation pins it to that constant and it
is kept implicit here. -/
structure IntentAnalysis where
  collected_information : String
  next_question_to_ask : Option String
  node_decision : Decision
deriving DecidableEq

/-- `JDAnalysis` pydantic schema (`current_node` pinned to `"invoke_jd"`
by its `Literal` type). -/
structure JDAnalysis where
  job_description : String
  node_decision : Decision
  next_question_to_ask : Option String
deriving DecidableEq

/-- `QuestionsAnalysis` pydantic schema (`current_node` pinned to
`"invoke_questions"`).  Note that `questions : List[str]` carries no
length constraint: pydantic accepts a list of any length. -/
structure QuestionsAnalysis where
  questions : List String
  node_decision : Decision
  next_question_to_ask : Option String
deriving DecidableEq

/-- The four values admitted by `RouteDecision.next_node`
(`Literal["invoke_intent", "invoke_jd", "invoke_questions", "END"]`). -/
inductive NextNode where
  | intentNode
  | jdNode
  | questionsNode
  | endNode
deriving DecidableEq

/-- The string each `NextNode` literal stands for. -/
def NextNode.str : NextNode → String
  | .intentNode => "invoke_intent"
  | .jdNode => "invoke_jd"
  | .questionsNode => "invoke_questions"
  | .endNode => "END"

/-- `RouteDecision` pydantic schema returned by the router oracle. -/
structure RouteDecision where
  next_node : NextNode
deriving DecidableEq

/-- Failure of an oracle invocation: a response rejected by pydantic
schema validation, or transport unavailability / timeout. -/
inductive OracleErr where
  | schemaViolation
  | unavailable
deriving DecidableEq

/-- A handler-level failure: the oracle call failed, or the handler body
itself raised (`KeyError` on `state["job_description"]`, `AttributeError`
from calling `.lower()` on `None`). -/
inductive HandlerErr where
  | oracle (e : OracleErr)
  | keyErrorJobDescription
  | attributeErrorNoneLower
deriving DecidableEq

/-- `_latest_user_text`: scan `messages` backwards for the most recent
user-tagged message; `""` when there is none. -/
def latestUserText (ms : List Msg) : String :=
  match ms.reverse.find? (fun m => decide (m.role = Role.user)) with
  | some m => m.content
  | none => ""

/-- Python f-string interpolation of an `Optional[str]` value: `None`
renders as the string `"None"`. -/
def pyStr : Option String → String
  | some s => s
  | none => "None"

/-- Python `str.lower()` on a single character (ASCII range, which covers
every literal the code compares against). -/
def charLower (c : Char) : Char :=
  if 65 ≤ c.toNat ∧ c.toNat ≤ 90 then Char.ofNat (c.toNat + 32) else c

/-- Python `str.lower()`. -/
def pyLower (s : String) : String := String.mk (s.data.map charLower)

/-- Does `n` occur at the head of `hay`? -/
def leadsWith : List Char → List Char → Bool
  | [], _ => true
  | _ :: _, [] => false
  | a :: as, b :: bs => decide (a = b) && leadsWith as bs

/-- Does `n` occur contiguously anywhere in `hay`? -/
def occursIn : List Char → List Char → Bool
  | n, [] => n.isEmpty
  | n, b :: t => leadsWith n (b :: t) || occursIn n t

/-- Python `needle in hay` on strings. -/
def strContains (hay needle : String) : Bool := occursIn needle.data hay.data

/-- `f"{ref_no+1} {question}"` joined with newlines, as built by
`invoke_questions` over `enumerate(analysis.questions)`. -/
def displayQuestions (qs : List String) : String :=
  String.intercalate "\n" (qs.enum.map (fun p => toString (p.1 + 1) ++ " " ++ p.2))

/-- The context bundle `supervisor_agent` interpolates into the router
prompt: latest user text, `current_node` and `node_decision` (both read
with default `""`). -/
structure RouterContext where
  user_input : String
  current_node : String
  node_decision : String
deriving DecidableEq

/-- The context bundle `invoke_intent` interpolates into its prompt. -/
structure IntentContext where
  prev_question : Option String
  collected_information : String
  user_input : String
deriving DecidableEq

/-- The context bundle `invoke_jd` interpolates into its prompt
(`collected_information` is fetched with `state.get` and no default, so
it stays optional here). -/
structure JdContext where
  collected_information : Option String
  user_input : String
  previous_job_description : String
deriving DecidableEq

/-- The context bundle `invoke_questions` interpolates into its prompt. -/
structure QuestionsContext where
  job_description : String
  user_input : String
  previous_questions : List String
deriving DecidableEq

/-- Context handed to the router oracle, built from the current state. -/
def routerContextOf (s : SupervisorState) : RouterContext :=
  ⟨latestUserText s.messages, s.current_node, s.node_decision⟩

/-- Context handed to the intent oracle, built from the current state. -/
def intentContextOf (s : SupervisorState) : IntentContext :=
  ⟨s.prev_question, s.collected_information.getD "", latestUserText s.messages⟩

/-- Context handed to the JD oracle, built from the current state. -/
def jdContextOf (s : SupervisorState) : JdContext :=
  ⟨s.collected_information, latestUserText s.messages, s.job_description.getD ""⟩

/-- Context handed to the questions oracle, built from the current state
once `state["job_description"]` has been read successfully. -/
def questionsContextOf (s : SupervisorState) (jd : String) : QuestionsContext :=
  ⟨jd, latestUserText s.messages, s.questions.getD []⟩

/-- The dict returned by the `supervisor_agent` node. -/
structure SupervisorUpdate where
  next_node_to_invoke : String
deriving DecidableEq

/-- The `supervisor_agent` node: build the router context from state,
invoke the router oracle, and return the oracle's `next_node` as the
`next_node_to_invoke` state delta. -/
def supervisor_agent (s : SupervisorState) (router : RouterContext → RouteDecision) :
    SupervisorUpdate :=
  ⟨(router (routerContextOf s)).next_node.str⟩

/-- Merge of the supervisor node's returned dict into state. -/
def mergeSupervisor (s : SupervisorState) (u : SupervisorUpdate) : SupervisorState :=
  { s with next_node_to_invoke := u.next_node_to_invoke }

/-- `route_logic`: returns `state["next_node_to_invoke"]`. -/
def route_logic (s : SupervisorState) : String := s.next_node_to_invoke

/-- The Routing Rules stated in the supervisor prompt (rules 1 to 4 of
`supervisor_agent`'s template): empty `current_node` starts at
`invoke_intent`; `"incomplete"` stays on the current node; `"complete"`
advances along `invoke_intent → invoke_jd → invoke_questions → END`.
Every other `(current_node, node_decision)` pair has no defined route. -/
def routeRules (current decision : String) : Option NextNode :=
  if current = "" then some .intentNode
  else if decision = "incomplete" then
    if current = "invoke_intent" then some .intentNode
    else if current = "invoke_jd" then some .jdNode
    else if current = "invoke_questions" then some .questionsNode
    else none
  else if decision = "complete" then
    if current = "invoke_intent" then some .jdNode
    else if current = "invoke_jd" then some .questionsNode
    else if current = "invoke_questions" then some .endNode
    else none
  else none

/-- The dict returned by `invoke_intent`. -/
structure IntentUpdate where
  collected_information : String
  current_node : String
  node_decision : Decision
  prev_question : Option String
  message : String
deriving DecidableEq

/-- `invoke_intent`: invoke the intent oracle on the context built from
state, then render the reply (`next_question_to_ask` interpolated the
Python way, so `None` prints as `"None"`) and return the state delta. -/
def invoke_intent (s : SupervisorState)
    (oracle : IntentContext → Except OracleErr IntentAnalysis) :
    Except HandlerErr IntentUpdate :=
  match oracle (intentContextOf s) with
  | .error e => .error (.oracle e)
  | .ok a =>
    let display := "**Collected Information:**\n```\n" ++ a.collected_information ++ "\n```"
    let content :=
      match a.node_decision with
      | .incomplete => pyStr a.next_question_to_ask ++ "\n\n" ++ display
      | .complete =>
          "✅ Great, I have all the required details.\n\n" ++ display ++
            "\n\nI will now proceed with drafting the job description. Click \x27Ok to continue\x27"
    .ok ⟨a.collected_information, "invoke_intent", a.node_decision,
      a.next_question_to_ask, content⟩

/-- Merge of `invoke_intent`'s returned dict into state (`add_messages`
appends the `AIMessage`). -/
def mergeIntent (s : SupervisorState) (u : IntentUpdate) : SupervisorState :=
  { s with
    collected_information := some u.collected_information,
    current_node := u.current_node,
    node_decision := u.node_decision.str,
    prev_question := u.prev_question,
    messages := s.messages ++ [⟨Role.agent, u.message⟩] }

/-- The dict returned by `invoke_jd`.  It deliberately has no
`prev_question` field: the handler's returned dict never carries that
key, so the merge leaves the stored `prev_question` untouched. -/
structure JdUpdate where
  job_description : String
  message : String
  current_node : String
  node_decision : Decision
deriving DecidableEq

/-- The completion notice `invoke_jd` renders when the oracle reports
`complete`. -/
def renderJdComplete (jd : String) : String :=
  "📝 **Job Description Draft:**\n\n" ++ jd ++
    "\n\n✅ Great! The job description is approved. Moving on to screening questions. Click \x27Ok to continue\x27"

/-- `invoke_jd`: invoke the JD oracle on the context built from state
(previous JD read with default `""`), then store the oracle's
`job_description` verbatim and render the draft plus either the oracle's
follow-up question or the completion notice. -/
def invoke_jd (s : SupervisorState)
    (oracle : JdContext → Except OracleErr JDAnalysis) :
    Except HandlerErr JdUpdate :=
  match oracle (jdContextOf s) with
  | .error e => .error (.oracle e)
  | .ok a =>
    let content :=
      match a.node_decision with
      | .incomplete =>
          "📝 **Job Description Draft:**\n\n" ++ a.job_description ++ "\n\n" ++
            pyStr a.next_question_to_ask
      | .complete => renderJdComplete a.job_description
    .ok ⟨a.job_description, content, "invoke_jd", a.node_decision⟩

/-- Merge of `invoke_jd`'s returned dict into state. -/
def mergeJd (s : SupervisorState) (u : JdUpdate) : SupervisorState :=
  { s with
    job_description := some u.job_description,
    current_node := u.current_node,
    node_decision := u.node_decision.str,
    messages := s.messages ++ [⟨Role.agent, u.message⟩] }

/-- The dict returned by `invoke_questions`. -/
structure QuestionsUpdate where
  questions : List String
  current_node : String
  node_decision : Decision
  message : String
deriving DecidableEq

/-- The final message `invoke_questions` renders when the oracle reports
`complete`: approval banner, the finalized job description from state,
the finalized numbered question list, and the session-end sentence. -/
def renderQuestionsComplete (jd : String) (qs : List String) : String :=
  "✅ Great! The screening questions are approved.\n\n" ++
    "\n**Finalized Job Description:**\n" ++ jd ++ "\n\n" ++
    "\n**Finalized Questions:**\n" ++ displayQuestions qs ++ "\n\n" ++
    "\nThis concludes our session."

/-- `invoke_questions`: read `state["job_description"]` (a `KeyError` if
absent), invoke the questions oracle, store its list verbatim and render
the reply.  On an `incomplete` decision the code calls
`analysis.next_question_to_ask.lower()`, which raises `AttributeError`
when that optional field is `None`. -/
def invoke_questions (s : SupervisorState)
    (oracle : QuestionsContext → Except OracleErr QuestionsAnalysis) :
    Except HandlerErr QuestionsUpdate :=
  match s.job_description with
  | none => .error .keyErrorJobDescription
  | some jd =>
    match oracle (questionsContextOf s jd) with
    | .error e => .error (.oracle e)
    | .ok a =>
      match a.node_decision with
      | .complete =>
          .ok ⟨a.questions, "invoke_questions", .complete,
            renderQuestionsComplete jd a.questions⟩
      | .incomplete =>
        match a.next_question_to_ask with
        | none => .error .attributeErrorNoneLower
        | some q =>
          let ql := pyLower q
          let followUp :=
            if strContains ql "please share the information" then
              "Understood. Can you please share the information to be updated?"
            else if strContains ql "further changes" then
              "I\x27ve updated the questions. Do you want to make any further changes? (Yes/No)"
            else
              "Do these look good, or would you like me to refine them? (Yes/No)"
          .ok ⟨a.questions, "invoke_questions", .incomplete,
            "Here are the current screening questions:\n\n" ++ displayQuestions a.questions ++
              "\n\n" ++ followUp⟩

/-- Merge of `invoke_questions`'s returned dict into state. -/
def mergeQuestions (s : SupervisorState) (u : QuestionsUpdate) : SupervisorState :=
  { s with
    questions := some u.questions,
    current_node := u.current_node,
    node_decision := u.node_decision.str,
    messages := s.messages ++ [⟨Role.agent, u.message⟩] }

/-- The oracle bundle available to one turn: the router LLM plus the
three phase oracles (each of which may fail). -/
structure Oracles where
  router : RouterContext → RouteDecision
  intent : IntentContext → Except OracleErr IntentAnalysis
  jd : JdContext → Except OracleErr JDAnalysis
  questions : QuestionsContext → Except OracleErr QuestionsAnalysis

/-- State after the incoming user message is appended to `messages`. -/
def afterUser (s : SupervisorState) (u : String) : SupervisorState :=
  { s with messages := s.messages ++ [⟨Role.user, u⟩] }

/-- State after the graph's entry point: user message appended, then the
`supervisor_agent` node run and its delta merged. -/
def turnStart (s : SupervisorState) (u : String) (o : Oracles) : SupervisorState :=
  mergeSupervisor (afterUser s u) (supervisor_agent (afterUser s u) o.router)

/-- One turn of the compiled graph.  Graph wiring is from the source
(`set_entry_point("supervisor_agent")`, conditional edges dispatching
`route_logic`'s value through the literal map, each handler wired to
`END`).  Modelled from the spec: the turn driver itself (LangGraph's
runtime and checkpointing, not part of this repository) appends the
incoming message, runs the entry node, dispatches, runs the selected
handler, merges its delta and appends its message; routing to `END` ends
the turn with no handler and no outgoing agent message; a raised handler
exception aborts the turn with no merge. -/
def run_turn (s : SupervisorState) (u : String) (o : Oracles) :
    Except HandlerErr (SupervisorState × Option String) :=
  let s2 := turnStart s u o
  if route_logic s2 = "invoke_intent" then
    match invoke_intent s2 o.intent with
    | .error e => .error e
    | .ok up => .ok (mergeIntent s2 up, some up.message)
  else if route_logic s2 = "invoke_jd" then
    match invoke_jd s2 o.jd with
    | .error e => .error e
    | .ok up => .ok (mergeJd s2 up, some up.message)
  else if route_logic s2 = "invoke_questions" then
    match invoke_questions s2 o.questions with
    | .error e => .error e
    | .ok up => .ok (mergeQuestions s2 up, some up.message)
  else
    .ok (s2, none)

/-- Modelled from the spec: atomic persistence at turn end (spec sections
4.5 and 7) — the injected checkpoint store, which is not part of this
repository, writes the updated record only when the turn succeeds; on a
handler failure the turn aborts, the stored conversation stays exactly as
it was, and no outgoing agent message exists. -/
def persistTurn (s : SupervisorState) (u : String) (o : Oracles) :
    SupervisorState × Option String :=
  match run_turn s u o with
  | .ok r => r
  | .error _ => (s, none)

/-- Rank of a phase node in the fixed order, for monotonicity statements:
unset `< invoke_intent < invoke_jd < invoke_questions`. -/
def phaseRank (current : String) : Nat :=
  if current = "invoke_intent" then 1
  else if current = "invoke_jd" then 2
  else if current = "invoke_questions" then 3
  else 0

/-- Did the turn succeed (no handler-level exception)? -/
def turnSucceeds (r : Except HandlerErr (SupervisorState × Option String)) : Bool :=
  match r with
  | .ok _ => true
  | .error _ => false

/-! ## Shared lemmas -/

lemma leadsWith_self_append (l r : List Char) : leadsWith l (l ++ r) = true := by
  induction l with
  | nil => rfl
  | cons a as ih => simp [leadsWith, ih]

lemma occursIn_of_leadsWith (n hay : List Char) (h : leadsWith n hay = true) :
    occursIn n hay = true := by
  cases hay with
  | nil =>
    cases n with
    | nil => rfl
    | cons a as => simp [leadsWith] at h
  | cons b t => simp [occursIn, h]

lemma occursIn_append (n pre hay : List Char) (hh : occursIn n hay = true) :
    occursIn n (pre ++ hay) = true := by
  induction pre with
  | nil => simpa using hh
  | cons x xs ih => simp [occursIn, ih]

lemma renderQC_contains_jd (jd : String) (qs : List String) :
    strContains (renderQuestionsComplete jd qs) jd = true := by
  unfold renderQuestionsComplete strContains
  simp only [String.data_append, List.append_assoc]
  apply occursIn_append
  apply occursIn_append
  exact occursIn_of_leadsWith _ _ (leadsWith_self_append _ _)

lemma renderQC_contains_questions (jd : String) (qs : List String) :
    strContains (renderQuestionsComplete jd qs) (displayQuestions qs) = true := by
  unfold renderQuestionsComplete strContains
  simp only [String.data_append, List.append_assoc]
  apply occursIn_append
  apply occursIn_append
  apply occursIn_append
  apply occursIn_append
  apply occursIn_append
  exact occursIn_of_leadsWith _ _ (leadsWith_self_append _ _)

lemma renderQC_contains_conclusion (jd : String) (qs : List String) :
    strContains (renderQuestionsComplete jd qs) "This concludes our session." = true := by
  unfold renderQuestionsComplete strContains
  simp only [String.data_append, List.append_assoc]
  apply occursIn_append
  apply occursIn_append
  apply occursIn_append
  apply occursIn_append
  apply occursIn_append
  apply occursIn_append
  apply occursIn_append
  decide

/-- On a successful oracle reply reporting `complete`, `invoke_questions`
returns the oracle's question list verbatim together with the finalized
rendering built from the stored job description. -/
lemma invoke_questions_complete_eq (s : SupervisorState)
    (oracle : QuestionsContext → Except OracleErr QuestionsAnalysis)
    (jd : String) (a : QuestionsAnalysis)
    (hjd : s.job_description = some jd)
    (ha : oracle (questionsContextOf s jd) = Except.ok a)
    (hd : a.node_decision = Decision.complete) :
    invoke_questions s oracle =
      Except.ok ⟨a.questions, "invoke_questions", Decision.complete,
        renderQuestionsComplete jd a.questions⟩ := by
  unfold invoke_questions
  rw [hjd]
  simp only [ha, hd]

/-! ## Concrete inputs for counterexamples and witnesses -/

/-- A ten-item question list. -/
def tenQs : List String :=
  ["a1", "a2", "a3", "a4", "a5", "a6", "a7", "a8", "a9", "a10"]

/-- Assessment-phase state with a stored job description and list. -/
def c10State : SupervisorState :=
  ⟨[⟨Role.user, "hi"⟩], some "info", some "JD", some ["q0"], "invoke_questions",
    none, "invoke_questions", "incomplete"⟩

/-- A schema-conforming oracle reply: `node_decision = "incomplete"` with
`next_question_to_ask = None` (the schema declares that field
`Optional[str]`, so pydantic accepts it). -/
def c10Resp : QuestionsAnalysis := ⟨tenQs, .incomplete, none⟩

/-- Oracle returning `c10Resp`. -/
def c10Oracle : QuestionsContext → Except OracleErr QuestionsAnalysis :=
  fun _ => .ok c10Resp

/-- C10: the Assessment handler is not total over schema-conforming
oracle responses: on a reply with `node_decision` incomplete and
`next_question_to_ask` null — which `QuestionsAnalysis` permits — the
code calls `.lower()` on `None` and raises `AttributeError` instead of
returning an updated state and rendered message. -/
theorem C10_none_question_raises :
    invoke_questions c10State c10Oracle =
      Except.error HandlerErr.attributeErrorNoneLower := rfl

/-- Assessment-phase state holding a finalized prior ten-item list. -/
def c1State : SupervisorState :=
  ⟨[⟨Role.user, "looks good"⟩], some "info", some "JD text", some tenQs,
    "invoke_questions", none, "invoke_questions", "incomplete"⟩

/-- Schema-conforming revision reply with only three items and a
`complete` decision. -/
def c1Resp : QuestionsAnalysis := ⟨["q1", "q2", "q3"], .complete, none⟩

/-- Oracle returning `c1Resp`. -/
def c1Oracle : QuestionsContext → Except OracleErr QuestionsAnalysis :=
  fun _ => .ok c1Resp

/-- C1 (counterexample): an oracle revision reply whose item list has
three entries and reports decision complete is merged, not rejected: the
handler succeeds, the stored `questions` become the three-item list, and
the prior ten-item value is not retained. -/
theorem C1_counterexample :
    (invoke_questions c1State c1Oracle).map
        (fun u => ((mergeQuestions c1State u).questions, u.node_decision)) =
      Except.ok (some ["q1", "q2", "q3"], Decision.complete) ∧
    (["q1", "q2", "q3"] : List String).length ≠ 10 ∧
    c1State.questions = some tenQs :=
  ⟨rfl, by decide, rfl⟩

/-- C1 (amended): `invoke_questions` performs no length validation at
all — on any successful oracle reply reporting `complete` it merges the
oracle's item list verbatim, so the stored `assessment_items` have ten
entries exactly when the oracle's list does; a non-ten list is merged
rather than rejected and the prior value is overwritten. -/
theorem C1_amended (s : SupervisorState)
    (oracle : QuestionsContext → Except OracleErr QuestionsAnalysis)
    (jd : String) (a : QuestionsAnalysis)
    (hjd : s.job_description = some jd)
    (ha : oracle (questionsContextOf s jd) = Except.ok a)
    (hd : a.node_decision = Decision.complete) :
    invoke_questions s oracle =
      Except.ok ⟨a.questions, "invoke_questions", Decision.complete,
        renderQuestionsComplete jd a.questions⟩ ∧
    (mergeQuestions s ⟨a.questions, "invoke_questions", Decision.complete,
        renderQuestionsComplete jd a.questions⟩).questions = some a.questions ∧
    (((mergeQuestions s ⟨a.questions, "invoke_questions", Decision.complete,
        renderQuestionsComplete jd a.questions⟩).questions.getD []).length = 10 ↔
      a.questions.length = 10) :=
  ⟨invoke_questions_complete_eq s oracle jd a hjd ha hd, rfl, by simp [mergeQuestions]⟩

/-- Witness for C1 (amended) at the three-item reply. -/
theorem C1_amended_witness :
    invoke_questions c1State c1Oracle =
      Except.ok ⟨c1Resp.questions, "invoke_questions", Decision.complete,
        renderQuestionsComplete "JD text" c1Resp.questions⟩ ∧
    (mergeQuestions c1State ⟨c1Resp.questions, "invoke_questions", Decision.complete,
        renderQuestionsComplete "JD text" c1Resp.questions⟩).questions =
      some c1Resp.questions ∧
    (((mergeQuestions c1State ⟨c1Resp.questions, "invoke_questions", Decision.complete,
        renderQuestionsComplete "JD text" c1Resp.questions⟩).questions.getD []).length = 10 ↔
      c1Resp.questions.length = 10) :=
  C1_amended c1State c1Oracle "JD text" c1Resp rfl rfl rfl

/-- Assessment-phase state for the completion-message claim. -/
def c9State : SupervisorState :=
  ⟨[⟨Role.user, "approved"⟩], some "info", some "JD final", some tenQs,
    "invoke_questions", none, "invoke_questions", "incomplete"⟩

/-- Approving oracle reply keeping the ten items. -/
def c9Resp : QuestionsAnalysis := ⟨tenQs, .complete, none⟩

/-- Oracle returning `c9Resp`. -/
def c9Oracle : QuestionsContext → Except OracleErr QuestionsAnalysis :=
  fun _ => .ok c9Resp

/-- C9: whenever the Assessment oracle reports decision complete, the
rendered agent message is the finalized rendering, which contains the
stored specification artifact (`job_description`), contains the
finalized numbered item list, and contains the end-of-workflow sentence
"This concludes our session.". -/
theorem C9_complete_message (s : SupervisorState)
    (oracle : QuestionsContext → Except OracleErr QuestionsAnalysis)
    (jd : String) (a : QuestionsAnalysis)
    (hjd : s.job_description = some jd)
    (ha : oracle (questionsContextOf s jd) = Except.ok a)
    (hd : a.node_decision = Decision.complete) :
    invoke_questions s oracle =
      Except.ok ⟨a.questions, "invoke_questions", Decision.complete,
        renderQuestionsComplete jd a.questions⟩ ∧
    strContains (renderQuestionsComplete jd a.questions) jd = true ∧
    strContains (renderQuestionsComplete jd a.questions) (displayQuestions a.questions) = true ∧
    strContains (renderQuestionsComplete jd a.questions) "This concludes our session." = true :=
  ⟨invoke_questions_complete_eq s oracle jd a hjd ha hd,
    renderQC_contains_jd jd a.questions,
    renderQC_contains_questions jd a.questions,
    renderQC_contains_conclusion jd a.questions⟩

/-- Witness for C9 at a concrete approving turn. -/
theorem C9_complete_message_witness :
    invoke_questions c9State c9Oracle =
      Except.ok ⟨c9Resp.questions, "invoke_questions", Decision.complete,
        renderQuestionsComplete "JD final" c9Resp.questions⟩ ∧
    strContains (renderQuestionsComplete "JD final" c9Resp.questions) "JD final" = true ∧
    strContains (renderQuestionsComplete "JD final" c9Resp.questions)
      (displayQuestions c9Resp.questions) = true ∧
    strContains (renderQuestionsComplete "JD final" c9Resp.questions)
      "This concludes our session." = true :=
  C9_complete_message c9State c9Oracle "JD final" c9Resp rfl rfl rfl

/-- State whose `(current_node, node_decision)` pair is outside the
declared routing domain (`"banana"` is not a defined decision). -/
def c2State : SupervisorState :=
  ⟨[⟨Role.user, "hello"⟩], some "info", none, none, "", none,
    "invoke_intent", "banana"⟩

/-- A router oracle that simply picks `invoke_jd`. -/
def c2Router : RouterContext → RouteDecision := fun _ => ⟨.jdNode⟩

/-- Oracle bundle for the out-of-domain routing turn. -/
def c2Oracles : Oracles :=
  ⟨c2Router, fun _ => .error .unavailable,
    fun _ => .ok ⟨"JD-X", .incomplete, some "Any changes?"⟩,
    fun _ => .error .unavailable⟩

/-- C2 (counterexample): for the pair `("invoke_intent", "banana")`,
which is outside the declared domain (`routeRules` defines no route for
it), the code-level routing step does not fail loudly: the supervisor
node returns whatever node the router oracle chose and the turn runs
that handler and succeeds. -/
theorem C2_counterexample :
    routeRules c2State.current_node c2State.node_decision = none ∧
    supervisor_agent c2State c2Router = ⟨"invoke_jd"⟩ ∧
    turnSucceeds (run_turn c2State "hello" c2Oracles) = true :=
  ⟨rfl, rfl, rfl⟩

/-- C2 (amended): the declared mapping is exactly the in-domain content
of the prompt's routing rules — unset phase routes to intake, an
`incomplete` decision stays on the current phase, a `complete` decision
advances along `invoke_intent → invoke_jd → invoke_questions → END` —
while the code-level routing step always forwards the router oracle's
choice, so out-of-domain pairs are not rejected by the code: the route
is whatever the oracle returns, with no loud failure. -/
theorem C2_amended :
    (∀ d, routeRules "" d = some NextNode.intentNode) ∧
    routeRules "invoke_intent" "incomplete" = some NextNode.intentNode ∧
    routeRules "invoke_jd" "incomplete" = some NextNode.jdNode ∧
    routeRules "invoke_questions" "incomplete" = some NextNode.questionsNode ∧
    routeRules "invoke_intent" "complete" = some NextNode.jdNode ∧
    routeRules "invoke_jd" "complete" = some NextNode.questionsNode ∧
    routeRules "invoke_questions" "complete" = some NextNode.endNode ∧
    (∀ s router, supervisor_agent s router =
      ⟨(router (routerContextOf s)).next_node.str⟩) :=
  ⟨fun _ => rfl, rfl, rfl, rfl, rfl, rfl, rfl, fun _ _ => rfl⟩

/-- State with the in-domain pair `("invoke_intent", "incomplete")`. -/
def c3State : SupervisorState :=
  ⟨[⟨Role.user, "hello"⟩], some "info", none, none, "", none,
    "invoke_intent", "incomplete"⟩

/-- A second state, differing from `c3State` in every non-routing field. -/
def c3StateB : SupervisorState :=
  ⟨[], none, none, none, "", none, "invoke_jd", "complete"⟩

/-- C3 (counterexample): for one fixed in-domain `(phase, decision)`
pair, two invocations of the routing step whose router oracle answers
differently return different next-phase results — the route is not a
function of the pair alone. -/
theorem C3_counterexample :
    routeRules c3State.current_node c3State.node_decision = some NextNode.intentNode ∧
    supervisor_agent c3State (fun _ => RouteDecision.mk NextNode.intentNode) ≠
      supervisor_agent c3State (fun _ => RouteDecision.mk NextNode.jdNode) :=
  ⟨rfl, by decide⟩

/-- C3 (amended): the stateless parts of routing are deterministic —
`route_logic` depends only on the `next_node_to_invoke` field, and the
supervisor node's update is determined entirely by the router oracle's
response (the same response yields the same update in any two states) —
but for a fixed `(phase, decision)` pair the code-level result still
varies with the oracle's response. -/
theorem C3_amended :
    (∀ s₁ s₂ : SupervisorState, s₁.next_node_to_invoke = s₂.next_node_to_invoke →
      route_logic s₁ = route_logic s₂) ∧
    (∀ (s₁ s₂ : SupervisorState) (r : RouteDecision),
      supervisor_agent s₁ (fun _ => r) = supervisor_agent s₂ (fun _ => r)) :=
  ⟨fun _ _ h => h, fun _ _ _ => rfl⟩

/-- Witness for C3 (amended) at two concrete states. -/
theorem C3_amended_witness :
    route_logic c3State = route_logic c3State ∧
    supervisor_agent c3State (fun _ => RouteDecision.mk NextNode.intentNode) =
      supervisor_agent c3StateB (fun _ => RouteDecision.mk NextNode.intentNode) :=
  ⟨C3_amended.1 c3State c3State rfl,
    C3_amended.2 c3State c3StateB (RouteDecision.mk NextNode.intentNode)⟩

/-- C6: on a Specification turn whose stored artifact is non-empty and
whose oracle classifies the user message as approval (per the prompt's
approval rule: keep the previous job description, decision complete, no
question), the handler stores the artifact unchanged, reports decision
complete, renders the approval notice, and writes no pending question
(its returned dict has no `prev_question` key, so that field is left
exactly as it was). -/
theorem C6_approval (s : SupervisorState)
    (oracle : JdContext → Except OracleErr JDAnalysis)
    (jd : String) (a : JDAnalysis)
    (hne : s.job_description = some jd) (_hjd : jd ≠ "")
    (ha : oracle (jdContextOf s) = Except.ok a)
    (h1 : a.job_description = jd) (h2 : a.node_decision = Decision.complete)
    (_h3 : a.next_question_to_ask = none) :
    invoke_jd s oracle =
      Except.ok ⟨jd, renderJdComplete jd, "invoke_jd", Decision.complete⟩ ∧
    (mergeJd s ⟨jd, renderJdComplete jd, "invoke_jd", Decision.complete⟩).job_description =
      s.job_description ∧
    (mergeJd s ⟨jd, renderJdComplete jd, "invoke_jd", Decision.complete⟩).prev_question =
      s.prev_question ∧
    (mergeJd s ⟨jd, renderJdComplete jd, "invoke_jd", Decision.complete⟩).node_decision =
      "complete" := by
  have e1 : invoke_jd s oracle =
      Except.ok ⟨jd, renderJdComplete jd, "invoke_jd", Decision.complete⟩ := by
    unfold invoke_jd
    rw [ha]
    simp only [h2, h1]
  exact ⟨e1, by simp [mergeJd, hne], rfl, rfl⟩

/-- Specification-phase state with a non-empty stored artifact and a
pending confirmation question. -/
def c6State : SupervisorState :=
  ⟨[⟨Role.user, "no changes"⟩], some "fields", some "JD v1", none,
    "invoke_jd", some "Changes? (Yes/No)", "invoke_jd", "incomplete"⟩

/-- Approval-shaped oracle reply: previous artifact kept, complete, no
question. -/
def c6Resp : JDAnalysis := ⟨"JD v1", .complete, none⟩

/-- Oracle returning `c6Resp`. -/
def c6Oracle : JdContext → Except OracleErr JDAnalysis := fun _ => .ok c6Resp

/-- Witness for C6 at a concrete approval turn. -/
theorem C6_approval_witness :
    invoke_jd c6State c6Oracle =
      Except.ok ⟨"JD v1", renderJdComplete "JD v1", "invoke_jd", Decision.complete⟩ ∧
    (mergeJd c6State ⟨"JD v1", renderJdComplete "JD v1", "invoke_jd",
        Decision.complete⟩).job_description = c6State.job_description ∧
    (mergeJd c6State ⟨"JD v1", renderJdComplete "JD v1", "invoke_jd",
        Decision.complete⟩).prev_question = c6State.prev_question ∧
    (mergeJd c6State ⟨"JD v1", renderJdComplete "JD v1", "invoke_jd",
        Decision.complete⟩).node_decision = "complete" :=
  C6_approval c6State c6Oracle "JD v1" c6Resp rfl (by decide) rfl rfl rfl rfl

/-- Specification turn with empty artifact and user message "ignore me". -/
def c7StateA : SupervisorState :=
  ⟨[⟨Role.user, "ignore me"⟩], some "fields", none, none, "", none,
    "invoke_jd", "incomplete"⟩

/-- Same `collected_fields` and empty artifact, different user message. -/
def c7StateB : SupervisorState :=
  ⟨[⟨Role.user, "please add X"⟩], some "fields", none, none, "", none,
    "invoke_jd", "incomplete"⟩

/-- A JD oracle that is a pure function of the context bundle it is
handed (which includes the latest user message) and whose output differs
between the two user messages. -/
def c7Oracle : JdContext → Except OracleErr JDAnalysis := fun c =>
  if c.user_input = "ignore me" then
    .ok ⟨"DOC-A", .incomplete, some "Changes? (Yes/No)"⟩
  else
    .ok ⟨"DOC-B", .incomplete, some "Changes? (Yes/No)"⟩

/-- C7 (counterexample): two Specification turns with identical
`collected_fields` and empty artifact but different latest user messages
produce different artifacts under one fixed oracle (a pure function of
the context the handler passes, which contains the user message) — the
generated document is not a function of `collected_fields` alone. -/
theorem C7_counterexample :
    c7StateA.job_description = none ∧ c7StateB.job_description = none ∧
    c7StateA.collected_information = c7StateB.collected_information ∧
    (invoke_jd c7StateA c7Oracle).map (fun u => u.job_description) =
      Except.ok "DOC-A" ∧
    (invoke_jd c7StateB c7Oracle).map (fun u => u.job_description) =
      Except.ok "DOC-B" ∧
    "DOC-A" ≠ "DOC-B" :=
  ⟨rfl, rfl, rfl, rfl, rfl, by decide⟩

/-- C7 (amended): with an empty artifact the handler stores the oracle's
`job_description` and decision verbatim, and the context bundle it hands
the oracle contains the latest user message alongside `collected_fields`
(and the empty previous artifact) — the instruction to ignore the user
message is delegated to the oracle by prompt text, not enforced by the
handler, so the produced artifact may depend on the user message. -/
theorem C7_amended (s : SupervisorState)
    (oracle : JdContext → Except OracleErr JDAnalysis) (a : JDAnalysis)
    (ho : oracle (jdContextOf s) = Except.ok a) :
    (invoke_jd s oracle).map (fun u => (u.job_description, u.node_decision)) =
      Except.ok (a.job_description, a.node_decision) ∧
    (jdContextOf s).user_input = latestUserText s.messages ∧
    (jdContextOf s).previous_job_description = s.job_description.getD "" := by
  refine ⟨?_, rfl, rfl⟩
  unfold invoke_jd
  rw [ho]
  rcases a with ⟨ajd, nd, nq⟩
  cases nd <;> rfl

/-- Witness for C7 (amended) at the "ignore me" turn. -/
theorem C7_amended_witness :
    (invoke_jd c7StateA c7Oracle).map (fun u => (u.job_description, u.node_decision)) =
      Except.ok ("DOC-A", Decision.incomplete) ∧
    (jdContextOf c7StateA).user_input = latestUserText c7StateA.messages ∧
    (jdContextOf c7StateA).previous_job_description =
      c7StateA.job_description.getD "" :=
  C7_amended c7StateA c7Oracle ⟨"DOC-A", Decision.incomplete, some "Changes? (Yes/No)"⟩ rfl

/-- `route_logic` after the supervisor node merged: the router oracle's
chosen node, as a string. -/
lemma route_logic_turnStart (s : SupervisorState) (u : String) (o : Oracles) :
    route_logic (turnStart s u o) =
      (o.router (routerContextOf (afterUser s u))).next_node.str := rfl

/-- Dispatch: a turn routed to `invoke_intent`. -/
lemma run_turn_intent_eq (s : SupervisorState) (u : String) (o : Oracles)
    (h : route_logic (turnStart s u o) = "invoke_intent") :
    run_turn s u o =
      (match invoke_intent (turnStart s u o) o.intent with
        | .error e => .error e
        | .ok up => .ok (mergeIntent (turnStart s u o) up, some up.message)) := by
  simp only [run_turn, h]
  rfl

/-- Dispatch: a turn routed to `invoke_jd`. -/
lemma run_turn_jd_eq (s : SupervisorState) (u : String) (o : Oracles)
    (h : route_logic (turnStart s u o) = "invoke_jd") :
    run_turn s u o =
      (match invoke_jd (turnStart s u o) o.jd with
        | .error e => .error e
        | .ok up => .ok (mergeJd (turnStart s u o) up, some up.message)) := by
  simp only [run_turn, h]
  rfl

/-- Dispatch: a turn routed to `invoke_questions`. -/
lemma run_turn_questions_eq (s : SupervisorState) (u : String) (o : Oracles)
    (h : route_logic (turnStart s u o) = "invoke_questions") :
    run_turn s u o =
      (match invoke_questions (turnStart s u o) o.questions with
        | .error e => .error e
        | .ok up => .ok (mergeQuestions (turnStart s u o) up, some up.message)) := by
  simp only [run_turn, h]
  rfl

/-- Dispatch: a turn routed to `END` runs no handler and emits no agent
message. -/
lemma run_turn_end_eq (s : SupervisorState) (u : String) (o : Oracles)
    (h : route_logic (turnStart s u o) = "END") :
    run_turn s u o = .ok (turnStart s u o, none) := by
  simp only [run_turn, h]
  rfl

/-- Terminal conversation state: Assessment already approved. -/
def c4State : SupervisorState :=
  ⟨[⟨Role.user, "no"⟩, ⟨Role.agent, "bye"⟩], some "info", some "JD", some tenQs,
    "invoke_questions", none, "invoke_questions", "complete"⟩

/-- Oracle bundle whose router always answers `END`; the phase oracles
are never consulted on an `END` turn. -/
def c4Oracles : Oracles :=
  ⟨fun _ => ⟨.endNode⟩, fun _ => .error .unavailable,
    fun _ => .error .unavailable, fun _ => .error .unavailable⟩

/-- C4 (counterexample): a turn after the workflow completed routes to
`END` and returns NO agent message at all (the `none` in the result) —
not "the same terminal summary message"; the terminal summary was
rendered once by the completing Assessment turn and is never re-emitted. -/
theorem C4_counterexample :
    run_turn c4State "thanks" c4Oracles =
      Except.ok ({ c4State with
        messages := c4State.messages ++ [⟨Role.user, "thanks"⟩],
        next_node_to_invoke := "END" }, none) := rfl

/-- C4 (amended): once the conversation is finished (`current_node`
"invoke_questions" with decision "complete"), any further turn whose
router follows the prompt rules routes to `END`, returns no agent
message, appends only the incoming user message, sets
`next_node_to_invoke` to "END", and leaves `collected_information`,
`job_description`, `questions`, `prev_question`, `current_node` and
`node_decision` unchanged — so repeated post-completion turns are
idempotent on every field but the appended user messages. -/
theorem C4_amended (s : SupervisorState) (u : String) (o : Oracles)
    (hc : s.current_node = "invoke_questions") (hd : s.node_decision = "complete")
    (hr : ∀ ctx : RouterContext, ctx.current_node = "invoke_questions" →
      ctx.node_decision = "complete" → o.router ctx = ⟨NextNode.endNode⟩) :
    run_turn s u o =
      Except.ok ({ s with
        messages := s.messages ++ [⟨Role.user, u⟩],
        next_node_to_invoke := "END" }, none) := by
  have hctx : o.router (routerContextOf (afterUser s u)) = ⟨NextNode.endNode⟩ :=
    hr (routerContextOf (afterUser s u)) hc hd
  have hroute : route_logic (turnStart s u o) = "END" := by
    rw [route_logic_turnStart, hctx]
    rfl
  rw [run_turn_end_eq s u o hroute]
  simp only [turnStart, mergeSupervisor, supervisor_agent, hctx, NextNode.str]
  rfl

/-- Witness for C4 (amended) at a concrete finished conversation. -/
theorem C4_amended_witness :
    run_turn c4State "ok" c4Oracles =
      Except.ok ({ c4State with
        messages := c4State.messages ++ [⟨Role.user, "ok"⟩],
        next_node_to_invoke := "END" }, none) :=
  C4_amended c4State "ok" c4Oracles rfl rfl (fun _ _ _ => rfl)

/-- Every successful `invoke_intent` update carries `current_node`
"invoke_intent". -/
lemma invoke_intent_current (s₀ : SupervisorState)
    (oracle : IntentContext → Except OracleErr IntentAnalysis)
    (up : IntentUpdate) (h : invoke_intent s₀ oracle = Except.ok up) :
    up.current_node = "invoke_intent" := by
  unfold invoke_intent at h
  split at h
  · simp at h
  · injection h with h
    rw [← h]

/-- Every successful `invoke_jd` update carries `current_node`
"invoke_jd". -/
lemma invoke_jd_current (s₀ : SupervisorState)
    (oracle : JdContext → Except OracleErr JDAnalysis)
    (up : JdUpdate) (h : invoke_jd s₀ oracle = Except.ok up) :
    up.current_node = "invoke_jd" := by
  unfold invoke_jd at h
  split at h
  · simp at h
  · injection h with h
    rw [← h]

/-- Every successful `invoke_questions` update carries `current_node`
"invoke_questions". -/
lemma invoke_questions_current (s₀ : SupervisorState)
    (oracle : QuestionsContext → Except OracleErr QuestionsAnalysis)
    (up : QuestionsUpdate) (h : invoke_questions s₀ oracle = Except.ok up) :
    up.current_node = "invoke_questions" := by
  unfold invoke_questions at h
  split at h
  · simp at h
  · split at h
    · simp at h
    · split at h
      · injection h with h
        rw [← h]
      · split at h
        · simp at h
        · injection h with h
          rw [← h]

/-- C5: handler-level failures abort the turn atomically.  Each phase
oracle failure (schema violation, unavailability) surfaces as a typed
handler failure rather than defaulted fields; a turn whose routed
handler fails propagates exactly that failure; and any failed turn
leaves the persisted conversation exactly as it was, with no agent
message appended. -/
theorem C5_atomic_abort (s : SupervisorState) (u : String) (o : Oracles) :
    (∀ e, run_turn s u o = Except.error e → persistTurn s u o = (s, none)) ∧
    (∀ (oe : OracleErr) (s₀ : SupervisorState),
      o.intent (intentContextOf s₀) = Except.error oe →
        invoke_intent s₀ o.intent = Except.error (HandlerErr.oracle oe)) ∧
    (∀ (oe : OracleErr) (s₀ : SupervisorState),
      o.jd (jdContextOf s₀) = Except.error oe →
        invoke_jd s₀ o.jd = Except.error (HandlerErr.oracle oe)) ∧
    (∀ (oe : OracleErr) (s₀ : SupervisorState) (jd : String),
      s₀.job_description = some jd →
      o.questions (questionsContextOf s₀ jd) = Except.error oe →
        invoke_questions s₀ o.questions = Except.error (HandlerErr.oracle oe)) ∧
    (∀ e, route_logic (turnStart s u o) = "invoke_intent" →
      invoke_intent (turnStart s u o) o.intent = Except.error e →
      run_turn s u o = Except.error e) ∧
    (∀ e, route_logic (turnStart s u o) = "invoke_jd" →
      invoke_jd (turnStart s u o) o.jd = Except.error e →
      run_turn s u o = Except.error e) ∧
    (∀ e, route_logic (turnStart s u o) = "invoke_questions" →
      invoke_questions (turnStart s u o) o.questions = Except.error e →
      run_turn s u o = Except.error e) := by
  refine ⟨?_, ?_, ?_, ?_, ?_, ?_, ?_⟩
  · intro e h
    unfold persistTurn
    rw [h]
  · intro oe s₀ h
    unfold invoke_intent
    rw [h]
  · intro oe s₀ h
    unfold invoke_jd
    rw [h]
  · intro oe s₀ jd hk h
    unfold invoke_questions
    simp only [hk, h]
  · intro e hroute hfail
    rw [run_turn_intent_eq s u o hroute, hfail]
  · intro e hroute hfail
    rw [run_turn_jd_eq s u o hroute, hfail]
  · intro e hroute hfail
    rw [run_turn_questions_eq s u o hroute, hfail]

/-- Specification-phase state for the failing-turn witness. -/
def c5State : SupervisorState :=
  ⟨[⟨Role.user, "go"⟩], some "info", some "JD", none, "invoke_jd",
    some "Changes?", "invoke_jd", "incomplete"⟩

/-- Oracle bundle whose router stays on `invoke_jd` and whose JD oracle
fails (timeout / unavailability). -/
def c5Oracles : Oracles :=
  ⟨fun _ => ⟨.jdNode⟩, fun _ => .error .unavailable,
    fun _ => .error .unavailable, fun _ => .error .unavailable⟩

/-- Witness for C5 at a concrete failing Specification turn. -/
theorem C5_atomic_abort_witness :
    persistTurn c5State "go again" c5Oracles = (c5State, none) ∧
    run_turn c5State "go again" c5Oracles =
      Except.error (HandlerErr.oracle OracleErr.unavailable) := by
  have h := C5_atomic_abort c5State "go again" c5Oracles
  have hrun := h.2.2.2.2.2.1 (HandlerErr.oracle OracleErr.unavailable) rfl rfl
  exact ⟨h.1 _ hrun, hrun⟩

/-- `turnStart` does not touch `current_node`. -/
lemma turnStart_current (s : SupervisorState) (u : String) (o : Oracles) :
    (turnStart s u o).current_node = s.current_node := rfl

/-- The in-domain shape of the prompt's routing rules: a defined route
exists only from the empty phase or one of the three phase nodes, and it
is the current node or its immediate successor. -/
lemma routeRules_cases (cur dec : String) (n : NextNode)
    (h : routeRules cur dec = some n) :
    (cur = "" ∧ n = .intentNode) ∨
    (cur = "invoke_intent" ∧ (n = .intentNode ∨ n = .jdNode)) ∨
    (cur = "invoke_jd" ∧ (n = .jdNode ∨ n = .questionsNode)) ∨
    (cur = "invoke_questions" ∧ (n = .questionsNode ∨ n = .endNode)) := by
  unfold routeRules at h
  split_ifs at h with h1 h2 h3 h4 h5 h6 h7 h8 h9 <;> simp_all

/-- Assessment-phase state mid-feedback-loop. -/
def c8State : SupervisorState :=
  ⟨[⟨Role.user, "hi"⟩], some "info", some "JD", some tenQs,
    "invoke_questions", none, "invoke_questions", "incomplete"⟩

/-- Oracle bundle whose router answers `invoke_intent` (which the
conditional-edges map accepts regardless of the current phase) and whose
intent oracle succeeds. -/
def c8Oracles : Oracles :=
  ⟨fun _ => ⟨.intentNode⟩,
    fun _ => .ok ⟨"info2", some "What role?", .incomplete⟩,
    fun _ => .error .unavailable, fun _ => .error .unavailable⟩

/-- C8 (counterexample): nothing in the code prevents regression — from
the Assessment phase (rank 3), a turn whose router oracle answers
`invoke_intent` executes the Intake handler and the stored phase falls
back to `invoke_intent` (rank 1). -/
theorem C8_counterexample :
    (run_turn c8State "hello" c8Oracles).map
        (fun r => (r.1.current_node, phaseRank r.1.current_node)) =
      Except.ok ("invoke_intent", 1) ∧
    phaseRank c8State.current_node = 3 :=
  ⟨rfl, rfl⟩

/-- C8 (amended): phase monotonicity holds exactly when the router
oracle follows the prompt's routing rules: if the rules define a route
for the current `(phase, decision)` pair and the oracle returns that
route, then a successful turn leaves the phase rank equal or advances it
by exactly one — the guarantee is delegated to the router oracle, not
enforced by `route_logic`. -/
theorem C8_amended (s : SupervisorState) (u : String) (o : Oracles)
    (t : SupervisorState) (m : Option String)
    (hin : routeRules s.current_node s.node_decision =
      some (o.router (routerContextOf (afterUser s u))).next_node)
    (hrun : run_turn s u o = Except.ok (t, m)) :
    phaseRank t.current_node = phaseRank s.current_node ∨
    phaseRank t.current_node = phaseRank s.current_node + 1 := by
  cases hn : (o.router (routerContextOf (afterUser s u))).next_node with
  | intentNode =>
    rw [hn] at hin
    have hroute : route_logic (turnStart s u o) = "invoke_intent" := by
      rw [route_logic_turnStart, hn]
      rfl
    rw [run_turn_intent_eq s u o hroute] at hrun
    cases hh : invoke_intent (turnStart s u o) o.intent with
    | error e => rw [hh] at hrun; simp at hrun
    | ok up =>
      rw [hh] at hrun
      injection hrun with hp
      injection hp with h1 h2
      have hcur : t.current_node = "invoke_intent" := by
        rw [← h1]
        exact invoke_intent_current _ _ _ hh
      rcases routeRules_cases _ _ _ hin with ⟨hc, _⟩ | ⟨hc, _⟩ | ⟨hc, hd⟩ | ⟨hc, hd⟩
      · rw [hcur, hc]; right; rfl
      · rw [hcur, hc]; left; rfl
      · rcases hd with hd | hd <;> simp at hd
      · rcases hd with hd | hd <;> simp at hd
  | jdNode =>
    rw [hn] at hin
    have hroute : route_logic (turnStart s u o) = "invoke_jd" := by
      rw [route_logic_turnStart, hn]
      rfl
    rw [run_turn_jd_eq s u o hroute] at hrun
    cases hh : invoke_jd (turnStart s u o) o.jd with
    | error e => rw [hh] at hrun; simp at hrun
    | ok up =>
      rw [hh] at hrun
      injection hrun with hp
      injection hp with h1 h2
      have hcur : t.current_node = "invoke_jd" := by
        rw [← h1]
        exact invoke_jd_current _ _ _ hh
      rcases routeRules_cases _ _ _ hin with ⟨hc, hd⟩ | ⟨hc, hd⟩ | ⟨hc, _⟩ | ⟨hc, hd⟩
      · simp at hd
      · rw [hcur, hc]; right; rfl
      · rw [hcur, hc]; left; rfl
      · rcases hd with hd | hd <;> simp at hd
  | questionsNode =>
    rw [hn] at hin
    have hroute : route_logic (turnStart s u o) = "invoke_questions" := by
      rw [route_logic_turnStart, hn]
      rfl
    rw [run_turn_questions_eq s u o hroute] at hrun
    cases hh : invoke_questions (turnStart s u o) o.questions with
    | error e => rw [hh] at hrun; simp at hrun
    | ok up =>
      rw [hh] at hrun
      injection hrun with hp
      injection hp with h1 h2
      have hcur : t.current_node = "invoke_questions" := by
        rw [← h1]
        exact invoke_questions_current _ _ _ hh
      rcases routeRules_cases _ _ _ hin with ⟨hc, hd⟩ | ⟨hc, hd⟩ | ⟨hc, hd⟩ | ⟨hc, _⟩
      · simp at hd
      · rcases hd with hd | hd <;> simp at hd
      · rw [hcur, hc]; right; rfl
      · rw [hcur, hc]; left; rfl
  | endNode =>
    rw [hn] at hin
    have hroute : route_logic (turnStart s u o) = "END" := by
      rw [route_logic_turnStart, hn]
      rfl
    rw [run_turn_end_eq s u o hroute] at hrun
    injection hrun with hp
    injection hp with h1 h2
    left
    rw [← h1, turnStart_current]

/-- Oracle bundle whose router approves the Specification phase and
advances to Assessment, and whose questions oracle keeps ten items. -/
def c8Oracles2 : Oracles :=
  ⟨fun _ => ⟨.questionsNode⟩, fun _ => .error .unavailable,
    fun _ => .error .unavailable, fun _ => .ok ⟨tenQs, .incomplete, some "Changes?"⟩⟩

/-- Specification-phase state whose decision is complete. -/
def c8State2 : SupervisorState :=
  ⟨[⟨Role.user, "no changes"⟩], some "info", some "JD", none, "invoke_jd",
    none, "invoke_jd", "complete"⟩

/-- Witness for C8 (amended): a conforming advancing turn from
Specification to Assessment raises the rank from 2 to 3. -/
theorem C8_amended_witness :
    phaseRank ((mergeQuestions (turnStart c8State2 "go" c8Oracles2)
        ⟨tenQs, "invoke_questions", Decision.incomplete,
          "Here are the current screening questions:\n\n" ++ displayQuestions tenQs ++
            "\n\n" ++ "Do these look good, or would you like me to refine them? (Yes/No)"⟩).current_node) =
      phaseRank c8State2.current_node ∨
    phaseRank ((mergeQuestions (turnStart c8State2 "go" c8Oracles2)
        ⟨tenQs, "invoke_questions", Decision.incomplete,
          "Here are the current screening questions:\n\n" ++ displayQuestions tenQs ++
            "\n\n" ++ "Do these look good, or would you like me to refine them? (Yes/No)"⟩).current_node) =
      phaseRank c8State2.current_node + 1 :=
  C8_amended c8State2 "go" c8Oracles2 _ _ rfl rfl

end Recruit
